import Mathlib

/-
Verification of the credit-core program (credana): shallow embedding of the
interest-accrual, solvency, liquidation and spend-reservation logic from
src/anchor/programs/credit-core/src, together with theorems settling the
spec claims.  Machine integers are modelled as Nat (u16/u64/u128) and Int
(i64); Rust checked arithmetic is modelled by failing with MathOverflow
exactly where the source's checked_* returns None, `as u64` casts by
reduction mod 2^64, saturating_sub on u64 by Nat truncated subtraction, and
unchecked release-mode additions by wrap-around.  Handlers return
Except CreditError: an error result models the transaction aborting with no
state change (the runtime's all-or-nothing visibility).  External
collaborators (oracle price read, token custody transfers) are passed in as
Except-valued parameters, matching the spec's black-box interfaces.
-/

deriving instance DecidableEq for Except

namespace Credana

/-- Error codes from errors.rs (plus the codes referenced by the debit
instructions: InsufficientBalance, SpendingNotAllowed, AccountNotActive,
InvalidOwner, InvalidMint). -/
inductive CreditError where
  | ProtocolPaused
  | Unauthorized
  | InvalidCollateralMint
  | InsufficientCollateral
  | HealthFactorTooLow
  | PositionHealthy
  | AmountTooSmall
  | StaleOracle
  | OracleConfidenceTooWide
  | MathOverflow
  | InvalidPercentage
  | DebtLimitExceeded
  | RepayExceedsDebt
  | InvalidOracle
  | LiquidationAmountTooLarge
  | PositionAlreadyInitialized
  | InvalidAuthority
  | SlippageExceeded
  | InsufficientBalance
  | SpendingNotAllowed
  | AccountNotActive
  | InvalidOwner
  | InvalidMint
  deriving DecidableEq, Repr

/-- Basis points precision, constants.rs. -/
def BPS_PRECISION : Nat := 10000

/-- Ray precision (27 decimals), constants.rs. -/
def RAY_PRECISION : Nat := 1000000000000000000000000000

/-- Seconds per year, constants.rs. -/
def SECONDS_PER_YEAR : Nat := 31536000

/-- Health factor buffer required for withdrawals, constants.rs line 14. -/
def HEALTH_FACTOR_BUFFER_BPS : Nat := 1100

/-- Minimum collateral deposit, constants.rs. -/
def MIN_DEPOSIT_AMOUNT : Nat := 100000000

/-- Largest u64 value. -/
def U64_MAX : Nat := 2 ^ 64 - 1

/-- Largest u128 value. -/
def U128_MAX : Nat := 2 ^ 128 - 1

/-- Largest i64 value. -/
def I64_MAX : Int := 2 ^ 63 - 1

/-- Smallest i64 value. -/
def I64_MIN : Int := -(2 ^ 63)

/-- Rust u64::checked_add: fails on overflow past u64::MAX. -/
def checkedAdd64 (a b : Nat) : Except CreditError Nat :=
  if a + b ≤ U64_MAX then .ok (a + b) else .error .MathOverflow

/-- Rust u64::checked_sub: fails on underflow. -/
def checkedSub64 (a b : Nat) : Except CreditError Nat :=
  if b ≤ a then .ok (a - b) else .error .MathOverflow

/-- Rust u128::checked_add: fails on overflow past u128::MAX. -/
def checkedAdd128 (a b : Nat) : Except CreditError Nat :=
  if a + b ≤ U128_MAX then .ok (a + b) else .error .MathOverflow

/-- Rust u128::checked_mul: fails on overflow past u128::MAX. -/
def checkedMul128 (a b : Nat) : Except CreditError Nat :=
  if a * b ≤ U128_MAX then .ok (a * b) else .error .MathOverflow

/-- Rust u128::checked_div: fails only on a zero divisor. -/
def checkedDiv128 (a b : Nat) : Except CreditError Nat :=
  if b = 0 then .error .MathOverflow else .ok (a / b)

/-- Rust i64::saturating_sub, clamping at the i64 range bounds. -/
def i64SaturatingSub (a b : Int) : Int :=
  max I64_MIN (min I64_MAX (a - b))

/-- Anchor's require! macro: ok when the condition holds, otherwise the
given error. -/
def require (p : Prop) [Decidable p] (e : CreditError) : Except CreditError Unit :=
  if p then .ok () else .error e

/-- Global protocol configuration, state/config.rs (oracle and mint
addresses, which the embedded logic never reads, are omitted; the admin
identity is a Nat standing for a Pubkey). -/
structure Config where
  admin : Nat
  paused : Bool
  ltv_max_bps : Nat
  liquidation_threshold_bps : Nat
  liquidation_bonus_bps : Nat
  interest_rate_bps : Nat
  global_borrow_index : Nat
  last_update_timestamp : Int
  total_debt_usdc : Nat
  total_collateral : Nat
  deriving DecidableEq, Repr

/-- A user's credit position, state/user_position.rs (the pubkey owner is a
Nat; collateral_mint and is_initialized, checked only by Anchor account
constraints, are omitted). -/
structure UserPosition where
  owner : Nat
  collateral_amount : Nat
  debt_usdc : Nat
  borrow_index_snapshot : Nat
  last_update_slot : Nat
  last_update_timestamp : Int
  lifetime_borrows : Nat
  lifetime_repayments : Nat
  liquidation_count : Nat
  credit_limit : Nat
  deriving DecidableEq, Repr

/-- Debit account, state/debit_account.rs. -/
structure DebitAccount where
  owner : Nat
  usdc_deposited : Nat
  usdc_available : Nat
  usdc_reserved : Nat
  lifetime_deposits : Nat
  lifetime_spent : Nat
  daily_limit : Nat
  daily_spent : Nat
  last_daily_reset : Int
  monthly_limit : Nat
  monthly_spent : Nat
  last_monthly_reset : Int
  status : Nat
  deriving DecidableEq, Repr

/-- UserPosition::calculate_debt_with_interest, user_position.rs lines
64-78: 0 when debt_usdc = 0 (no multiplication or division is performed);
otherwise floor(debt * current_index / snapshot) computed in checked u128
and cast back with `as u64` (reduction mod 2^64). -/
def calculate_debt_with_interest (p : UserPosition) (current_borrow_index : Nat) :
    Except CreditError Nat :=
  if p.debt_usdc = 0 then .ok 0
  else do
    let m ← checkedMul128 p.debt_usdc current_borrow_index
    let d ← checkedDiv128 m p.borrow_index_snapshot
    .ok (d % 2 ^ 64)

/-- UserPosition::calculate_health_factor, user_position.rs lines 110-142:
u64::MAX when debt is zero, else liquidation-discounted collateral value
over debt in bps, with the final `as u64` cast. -/
def calculate_health_factor (p : UserPosition) (collateral_price : Nat)
    (liquidation_threshold_bps : Nat) (current_debt : Nat) :
    Except CreditError Nat :=
  if current_debt = 0 then .ok U64_MAX
  else do
    let v ← checkedMul128 p.collateral_amount collateral_price
    let collateral_value ← checkedDiv128 v 1000
    let w ← checkedMul128 collateral_value liquidation_threshold_bps
    let liquidation_value ← checkedDiv128 w 10000
    let x ← checkedMul128 liquidation_value 10000
    let health_factor ← checkedDiv128 x current_debt
    .ok (health_factor % 2 ^ 64)

/-- utils.rs calculate_borrow_index, lines 52-82: returns the index
unchanged when time_elapsed ≤ 0, otherwise compounds it by
1 + rate * elapsed / seconds_per_year at Ray precision, all in checked
u128 arithmetic. -/
def calculate_borrow_index (current_index : Nat) (interest_rate_bps : Nat)
    (time_elapsed : Int) : Except CreditError Nat :=
  if time_elapsed ≤ 0 then .ok current_index
  else do
    let r ← checkedMul128 interest_rate_bps RAY_PRECISION
    let rate_ray ← checkedDiv128 r BPS_PRECISION
    let d ← checkedMul128 rate_ray time_elapsed.toNat
    let interest_delta ← checkedDiv128 d SECONDS_PER_YEAR
    let s ← checkedAdd128 RAY_PRECISION interest_delta
    let n ← checkedMul128 current_index s
    let new_index ← checkedDiv128 n RAY_PRECISION
    .ok new_index

/-- utils.rs calculate_max_borrow, lines 85-105. -/
def calculate_max_borrow (collateral_amount : Nat) (collateral_price : Nat)
    (ltv_max_bps : Nat) : Except CreditError Nat := do
  let v ← checkedMul128 collateral_amount collateral_price
  let collateral_value_usdc ← checkedDiv128 v 1000
  let w ← checkedMul128 collateral_value_usdc ltv_max_bps
  let max_borrow ← checkedDiv128 w BPS_PRECISION
  .ok (max_borrow % 2 ^ 64)

/-- utils.rs calculate_liquidation_bonus, lines 108-119. -/
def calculate_liquidation_bonus (repay_amount : Nat) (liquidation_bonus_bps : Nat) :
    Except CreditError Nat := do
  let b ← checkedMul128 repay_amount liquidation_bonus_bps
  let bonus ← checkedDiv128 b BPS_PRECISION
  .ok (bonus % 2 ^ 64)

/-- utils.rs usdc_to_collateral, lines 122-134. -/
def usdc_to_collateral (usdc_amount : Nat) (collateral_price : Nat) :
    Except CreditError Nat := do
  let c ← checkedMul128 usdc_amount 1000
  let collateral ← checkedDiv128 c collateral_price
  .ok (collateral % 2 ^ 64)

/-- Seconds per day used by DebitAccount::needs_daily_reset. -/
def SECONDS_PER_DAY : Int := 86400

/-- Approximate seconds per month used by DebitAccount::needs_monthly_reset. -/
def SECONDS_PER_MONTH : Int := 2592000

/-- DebitAccount::needs_daily_reset, debit_account.rs lines 109-112.  Rust
i64 division truncates toward zero, hence Int.tdiv. -/
def needs_daily_reset (a : DebitAccount) (current_timestamp : Int) : Bool :=
  current_timestamp.tdiv SECONDS_PER_DAY > a.last_daily_reset.tdiv SECONDS_PER_DAY

/-- DebitAccount::needs_monthly_reset, debit_account.rs lines 115-120. -/
def needs_monthly_reset (a : DebitAccount) (current_timestamp : Int) : Bool :=
  current_timestamp.tdiv SECONDS_PER_MONTH > a.last_monthly_reset.tdiv SECONDS_PER_MONTH

/-- DebitAccount::can_spend, debit_account.rs lines 72-106.  The source's
`daily_spent + amount` additions are plain u64 adds (wrap-around in release
builds), modelled by reduction mod 2^64. -/
def can_spend (a : DebitAccount) (amount : Nat) (current_timestamp : Int) :
    Except CreditError Bool :=
  if a.status ≠ 1 then .ok false
  else if a.usdc_available < amount then .ok false
  else
    let daily_spent := if needs_daily_reset a current_timestamp then 0 else a.daily_spent
    if (daily_spent + amount) % 2 ^ 64 > a.daily_limit then .ok false
    else
      let monthly_spent := if needs_monthly_reset a current_timestamp then 0 else a.monthly_spent
      if (monthly_spent + amount) % 2 ^ 64 > a.monthly_limit then .ok false
      else .ok true

/-- DebitAccount::reserve_funds, debit_account.rs lines 123-138. -/
def reserve_funds (a : DebitAccount) (amount : Nat) : Except CreditError DebitAccount := do
  let _ ← require (a.usdc_available ≥ amount) .InsufficientBalance
  let av ← checkedSub64 a.usdc_available amount
  let rv ← checkedAdd64 a.usdc_reserved amount
  .ok { a with usdc_available := av, usdc_reserved := rv }

/-- Daily-window arm of DebitAccount::commit_reserved, debit_account.rs
lines 155-163: reset daily_spent to the committed amount on a boundary
crossing, else accumulate with checked addition. -/
def commit_daily (a : DebitAccount) (amount : Nat) (current_timestamp : Int) :
    Except CreditError DebitAccount :=
  if needs_daily_reset a current_timestamp then
    .ok { a with daily_spent := amount, last_daily_reset := current_timestamp }
  else do
    let ds ← checkedAdd64 a.daily_spent amount
    .ok { a with daily_spent := ds }

/-- Monthly-window arm of DebitAccount::commit_reserved, debit_account.rs
lines 165-173. -/
def commit_monthly (a : DebitAccount) (amount : Nat) (current_timestamp : Int) :
    Except CreditError DebitAccount :=
  if needs_monthly_reset a current_timestamp then
    .ok { a with monthly_spent := amount, last_monthly_reset := current_timestamp }
  else do
    let ms ← checkedAdd64 a.monthly_spent amount
    .ok { a with monthly_spent := ms }

/-- DebitAccount::commit_reserved, debit_account.rs lines 141-176. -/
def commit_reserved (a : DebitAccount) (amount : Nat) (current_timestamp : Int) :
    Except CreditError DebitAccount := do
  let _ ← require (a.usdc_reserved ≥ amount) .InsufficientBalance
  let rv ← checkedSub64 a.usdc_reserved amount
  let ls ← checkedAdd64 a.lifetime_spent amount
  let b := { a with usdc_reserved := rv, lifetime_spent := ls }
  let c ← commit_daily b amount current_timestamp
  let d ← commit_monthly c amount current_timestamp
  .ok d

/-- DebitAccount::release_reserved, debit_account.rs lines 179-194. -/
def release_reserved (a : DebitAccount) (amount : Nat) : Except CreditError DebitAccount := do
  let _ ← require (a.usdc_reserved ≥ amount) .InsufficientBalance
  let rv ← checkedSub64 a.usdc_reserved amount
  let av ← checkedAdd64 a.usdc_available amount
  .ok { a with usdc_reserved := rv, usdc_available := av }

/-- Handler of withdraw_collateral.rs, lines 62-175.  The oracle read
(get_pyth_price) and the vault-to-user token transfer are external
collaborators, passed in as their results; `now` and `slot` stand for the
Clock sysvar.  An error return models the aborted transaction (no state
visible); an ok return carries the persisted Config and UserPosition. -/
def withdraw_collateral_handler (config : Config) (user_position : UserPosition)
    (amount : Nat) (now : Int) (slot : Nat)
    (oracle : Except CreditError Nat) (transfer : Except CreditError Unit) :
    Except CreditError (Config × UserPosition) := do
  let _ ← require (config.paused = false) .ProtocolPaused
  let _ ← require (amount > 0) .AmountTooSmall
  let _ ← require (amount ≤ user_position.collateral_amount) .InsufficientCollateral
  let time_elapsed := i64SaturatingSub now config.last_update_timestamp
  let idx ← calculate_borrow_index config.global_borrow_index config.interest_rate_bps time_elapsed
  let config := { config with global_borrow_index := idx, last_update_timestamp := now }
  let (user_position, current_debt) ←
    if user_position.debt_usdc > 0 then do
      let debt_with_interest ← calculate_debt_with_interest user_position idx
      .ok ({ user_position with
               debt_usdc := debt_with_interest,
               borrow_index_snapshot := idx }, debt_with_interest)
    else
      .ok (user_position, 0)
  let remaining_collateral ← checkedSub64 user_position.collateral_amount amount
  let _ ←
    if current_debt > 0 then do
      let price ← oracle
      let temp_position := { user_position with collateral_amount := remaining_collateral }
      let health_factor ← calculate_health_factor temp_position price
        config.liquidation_threshold_bps current_debt
      require (health_factor ≥ HEALTH_FACTOR_BUFFER_BPS) .HealthFactorTooLow
    else
      .ok ()
  let _ ← transfer
  let user_position := { user_position with
    collateral_amount := remaining_collateral,
    last_update_slot := slot, last_update_timestamp := now }
  let tc ← checkedSub64 config.total_collateral amount
  let config := { config with total_collateral := tc }
  let user_position ←
    if current_debt = 0 ∧ remaining_collateral = 0 then
      .ok { user_position with credit_limit := 0 }
    else if remaining_collateral > 0 then do
      let price ← oracle
      let cl ← calculate_max_borrow remaining_collateral price config.ltv_max_bps
      .ok { user_position with credit_limit := cl }
    else
      .ok user_position
  .ok (config, user_position)

/-- Handler of deposit_collateral.rs, lines 62-131, with the user-to-vault
transfer and oracle read as collaborator results. -/
def deposit_collateral_handler (config : Config) (user_position : UserPosition)
    (amount : Nat) (now : Int) (slot : Nat)
    (oracle : Except CreditError Nat) (transfer : Except CreditError Unit) :
    Except CreditError (Config × UserPosition) := do
  let _ ← require (config.paused = false) .ProtocolPaused
  let _ ← require (amount ≥ MIN_DEPOSIT_AMOUNT) .AmountTooSmall
  let time_elapsed := i64SaturatingSub now config.last_update_timestamp
  let idx ← calculate_borrow_index config.global_borrow_index config.interest_rate_bps time_elapsed
  let config := { config with global_borrow_index := idx, last_update_timestamp := now }
  let user_position ←
    if user_position.debt_usdc > 0 then do
      let debt_with_interest ← calculate_debt_with_interest user_position idx
      .ok { user_position with debt_usdc := debt_with_interest, borrow_index_snapshot := idx }
    else
      .ok user_position
  let _ ← transfer
  let ca ← checkedAdd64 user_position.collateral_amount amount
  let user_position := { user_position with
    collateral_amount := ca,
    last_update_slot := slot, last_update_timestamp := now }
  let tc ← checkedAdd64 config.total_collateral amount
  let config := { config with total_collateral := tc }
  let price ← oracle
  let new_credit_limit ← calculate_max_borrow user_position.collateral_amount price
    config.ltv_max_bps
  let user_position := { user_position with credit_limit := new_credit_limit }
  .ok (config, user_position)

/-- Result of a successful liquidation: persisted config and position plus
the actually repaid USDC and seized collateral amounts. -/
structure LiquidateOutcome where
  config : Config
  position : UserPosition
  repaid : Nat
  seized : Nat
  deriving DecidableEq, Repr

/-- Handler of liquidate.rs, lines 83-210.  The oracle read and the two
custody transfers (liquidator USDC in, vault collateral out) are
collaborator results; user_being_liquidated is the target identity checked
against the position owner.  The u32 liquidation_count increment is a plain
add (wrap-around in release builds), modelled mod 2^32. -/
def liquidate_handler (config : Config) (user_position : UserPosition)
    (user_being_liquidated : Nat) (repay_amount : Nat) (now : Int) (slot : Nat)
    (oracle : Except CreditError Nat)
    (transfer_usdc : Except CreditError Unit) (transfer_collateral : Except CreditError Unit) :
    Except CreditError LiquidateOutcome := do
  let _ ← require (config.paused = false) .ProtocolPaused
  let _ ← require (user_being_liquidated = user_position.owner) .Unauthorized
  let _ ← require (repay_amount > 0) .AmountTooSmall
  let time_elapsed := i64SaturatingSub now config.last_update_timestamp
  let idx ← calculate_borrow_index config.global_borrow_index config.interest_rate_bps time_elapsed
  let config := { config with global_borrow_index := idx, last_update_timestamp := now }
  let current_debt ← calculate_debt_with_interest user_position idx
  let _ ← require (current_debt > 0) .RepayExceedsDebt
  let jito_sol_price ← oracle
  let health_factor ← calculate_health_factor user_position jito_sol_price
    config.liquidation_threshold_bps current_debt
  let _ ← require (health_factor < BPS_PRECISION) .PositionHealthy
  let max_liquidation := current_debt / 2
  let actual_repay_amount := min (min repay_amount max_liquidation) current_debt
  let bonus_amount ← calculate_liquidation_bonus actual_repay_amount config.liquidation_bonus_bps
  let total_value_to_seize ← checkedAdd64 actual_repay_amount bonus_amount
  let collateral_to_seize ← usdc_to_collateral total_value_to_seize jito_sol_price
  let actual_collateral_seized := min collateral_to_seize user_position.collateral_amount
  let _ ← transfer_usdc
  let _ ← transfer_collateral
  let new_debt ← checkedSub64 current_debt actual_repay_amount
  let new_collateral ← checkedSub64 user_position.collateral_amount actual_collateral_seized
  let user_position := { user_position with
    debt_usdc := new_debt,
    collateral_amount := new_collateral,
    borrow_index_snapshot := config.global_borrow_index,
    liquidation_count := (user_position.liquidation_count + 1) % 2 ^ 32,
    last_update_slot := slot,
    last_update_timestamp := now }
  let td ← checkedSub64 config.total_debt_usdc actual_repay_amount
  let tcoll ← checkedSub64 config.total_collateral actual_collateral_seized
  let config := { config with total_debt_usdc := td, total_collateral := tcoll }
  .ok { config := config, position := user_position,
        repaid := actual_repay_amount, seized := actual_collateral_seized }

/-- Accrual call as written in record_debt.rs and repay_usdc.rs: those
handlers invoke calculate_borrow_index with the argument list
(last_update_timestamp, now, index, rate), read as accruing the index at
the given rate over now - last_update_timestamp (plain i64 difference). -/
def calculate_borrow_index_from (last_update_timestamp : Int) (now : Int)
    (current_index : Nat) (interest_rate_bps : Nat) : Except CreditError Nat :=
  calculate_borrow_index current_index interest_rate_bps (now - last_update_timestamp)

/-- The six consecutive index refreshes at the top of record_debt.rs
(lines 33-68) and repay_usdc.rs (lines 44-79): each call feeds the previous
result back in while last_update_timestamp is still unchanged. -/
def sixfold_borrow_index (config : Config) (now : Int) : Except CreditError Nat := do
  let i1 ← calculate_borrow_index_from config.last_update_timestamp now
    config.global_borrow_index config.interest_rate_bps
  let i2 ← calculate_borrow_index_from config.last_update_timestamp now i1 config.interest_rate_bps
  let i3 ← calculate_borrow_index_from config.last_update_timestamp now i2 config.interest_rate_bps
  let i4 ← calculate_borrow_index_from config.last_update_timestamp now i3 config.interest_rate_bps
  let i5 ← calculate_borrow_index_from config.last_update_timestamp now i4 config.interest_rate_bps
  let i6 ← calculate_borrow_index_from config.last_update_timestamp now i5 config.interest_rate_bps
  .ok i6

/-- Handler of repay_usdc.rs, lines 38-105 (it performs no paused check and
no token transfer; the user/treasury token accounts are unchecked in the
source).  Returns the persisted config and position and the actual repaid
amount. -/
def repay_usdc_handler (config : Config) (user_position : UserPosition)
    (usdc_amount : Nat) (now : Int) :
    Except CreditError (Config × UserPosition × Nat) := do
  let idx ← sixfold_borrow_index config now
  let config := { config with global_borrow_index := idx, last_update_timestamp := now }
  let current_debt ← calculate_debt_with_interest user_position idx
  let repay_amount := min usdc_amount current_debt
  let new_debt ← checkedSub64 current_debt repay_amount
  let user_position := { user_position with
    debt_usdc := new_debt,
    borrow_index_snapshot := idx, last_update_timestamp := now }
  let config := { config with total_debt_usdc := config.total_debt_usdc - repay_amount }
  .ok (config, user_position, repay_amount)

/-- Handler of record_debt.rs, lines 27-93 (no paused check in the
source). -/
def record_debt_handler (config : Config) (user_position : UserPosition)
    (usdc_amount : Nat) (now : Int) :
    Except CreditError (Config × UserPosition) := do
  let idx ← sixfold_borrow_index config now
  let config := { config with global_borrow_index := idx, last_update_timestamp := now }
  let user_position ←
    if user_position.debt_usdc > 0 then do
      let d ← calculate_debt_with_interest user_position idx
      .ok { user_position with debt_usdc := d }
    else
      .ok user_position
  let nd ← checkedAdd64 user_position.debt_usdc usdc_amount
  let user_position := { user_position with
    debt_usdc := nd,
    borrow_index_snapshot := idx, last_update_timestamp := now }
  let td ← checkedAdd64 config.total_debt_usdc usdc_amount
  let config := { config with total_debt_usdc := td }
  .ok (config, user_position)

/-- Handler of debit_spend.rs, lines 7-34, including the Accounts
constraint that the signing authority is the config admin (validated
before the handler body).  The source reads config.is_paused; Config's
field is paused. -/
def debit_spend_handler (config : Config) (debit_account : DebitAccount)
    (authority : Nat) (amount : Nat) (now : Int) :
    Except CreditError DebitAccount := do
  let _ ← require (authority = config.admin) .Unauthorized
  let _ ← require (config.paused = false) .ProtocolPaused
  let _ ← require (debit_account.status = 1) .AccountNotActive
  let allowed ← can_spend debit_account amount now
  let _ ← require (allowed = true) .SpendingNotAllowed
  reserve_funds debit_account amount

/-- Handler of debit_settle.rs, lines 7-20, including the admin-authority
account constraint; the body performs no paused check. -/
def debit_settle_handler (config : Config) (debit_account : DebitAccount)
    (authority : Nat) (amount : Nat) (now : Int) :
    Except CreditError DebitAccount := do
  let _ ← require (authority = config.admin) .Unauthorized
  commit_reserved debit_account amount now

/-- One step of the spend-reservation ledger: the three DebitAccount
operations reserve_funds / commit_reserved / release_reserved. -/
inductive DebitOp where
  | reserve (amount : Nat)
  | commit (amount : Nat) (timestamp : Int)
  | release (amount : Nat)
  deriving DecidableEq, Repr

/-- Apply one DebitOp to an account. -/
def applyDebitOp (a : DebitAccount) : DebitOp → Except CreditError DebitAccount
  | .reserve amount => reserve_funds a amount
  | .commit amount timestamp => commit_reserved a amount timestamp
  | .release amount => release_reserved a amount

/-- Apply a sequence of DebitOps left to right, aborting on the first
failure. -/
def applyDebitOps (a : DebitAccount) : List DebitOp → Except CreditError DebitAccount
  | [] => .ok a
  | op :: ops => do
    let a ← applyDebitOp a op
    applyDebitOps a ops

/-- Concrete protocol configuration used to evaluate the claims: zero
interest rate and a fresh index, so a zero elapsed time leaves the index at
its genesis Ray value. -/
def cfgBase : Config := {
  admin := 9, paused := false, ltv_max_bps := 5000,
  liquidation_threshold_bps := 6000, liquidation_bonus_bps := 600,
  interest_rate_bps := 0, global_borrow_index := RAY_PRECISION,
  last_update_timestamp := 0, total_debt_usdc := 1000000000,
  total_collateral := 10000000 }

/-- cfgBase with the circuit breaker set. -/
def cfgPaused : Config := { cfgBase with paused := true }

/-- Concrete position: 2.0 collateral units (9 decimals would read 2e6
lamport-scale units), 1000 USDC of debt at the genesis index. -/
def posWithdraw : UserPosition := {
  owner := 1, collateral_amount := 2000000,
  debt_usdc := 1000000000, borrow_index_snapshot := RAY_PRECISION,
  last_update_slot := 0, last_update_timestamp := 0, lifetime_borrows := 0,
  lifetime_repayments := 0, liquidation_count := 0, credit_limit := 0 }

/-- posWithdraw without debt. -/
def posNoDebt : UserPosition := { posWithdraw with debt_usdc := 0 }

/-- Concrete insolvent position for the liquidation claims: with price
1000000 and threshold 6000 bps its health factor is 6000 < 10000. -/
def posLiq : UserPosition := { posWithdraw with owner := 7, collateral_amount := 1000000 }

/-- posLiq with a small debt, making it healthy (health factor 60000000). -/
def posHealthy : UserPosition := { posLiq with debt_usdc := 100000 }

/-- The outcome of liquidating posLiq under cfgBase at price 1000000 with
repay_amount 400000000 (computed by evaluation). -/
def outLiq : LiquidateOutcome := {
  config := { cfgBase with total_debt_usdc := 600000000, total_collateral := 9576000 },
  position := { posLiq with
    collateral_amount := 576000, debt_usdc := 600000000,
    liquidation_count := 1 },
  repaid := 400000000,
  seized := 424000 }

/-- Position exercising the u128-to-u64 truncation in
calculate_debt_with_interest: a sub-Ray index snapshot. -/
def posTrunc : UserPosition := { posNoDebt with
  debt_usdc := 2 ^ 63,
  borrow_index_snapshot := 1 }

/-- Scenario B position: principal 1000 at snapshot 1.0e27. -/
def posScenB : UserPosition := { posNoDebt with debt_usdc := 1000 }

/-- Config for the repay scenario: aggregate debt (50) below the
position's accrued debt, exercising the saturating subtraction. -/
def cfgRepay : Config := { cfgBase with total_debt_usdc := 50 }

/-- Position owing 100 for the repay scenario. -/
def posRepay : UserPosition := { posNoDebt with debt_usdc := 100, collateral_amount := 0 }

/-- cfgRepay after the concrete repayment: the aggregate saturates to 0. -/
def cfgRepaid : Config := { cfgRepay with total_debt_usdc := 0 }

/-- posRepay after the concrete repayment: debt cleared. -/
def posRepaid : UserPosition := { posRepay with debt_usdc := 0 }

/-- cfgBase after the concrete withdrawal of 1000000 collateral units. -/
def cfgWithdrawn : Config := { cfgBase with total_collateral := 9000000 }

/-- posWithdraw after the concrete withdrawal: half the collateral gone,
credit limit recomputed. -/
def posWithdrawn : UserPosition := { posWithdraw with
  collateral_amount := 1000000,
  credit_limit := 500000000 }

/-- cfgPaused after record_debt of 5 slips through the missing pause
check. -/
def cfgRecorded : Config := { cfgPaused with total_debt_usdc := 1000000005 }

/-- posNoDebt after record_debt of 5. -/
def posRecorded : UserPosition := { posNoDebt with debt_usdc := 5 }

/-- Concrete active debit account. -/
def dAcct : DebitAccount := {
  owner := 3, usdc_deposited := 100, usdc_available := 100,
  usdc_reserved := 0, lifetime_deposits := 100, lifetime_spent := 0,
  daily_limit := 1000, daily_spent := 0, last_daily_reset := 0,
  monthly_limit := 10000, monthly_spent := 0, last_monthly_reset := 0, status := 1 }

/-- dAcct with an outstanding reservation of 10. -/
def dAcctReserved : DebitAccount := { dAcct with usdc_reserved := 10 }

/-- dAcctReserved after debit_settle commits 5 while the protocol is
paused. -/
def dAcctSettled : DebitAccount := { dAcctReserved with
  usdc_reserved := 5, lifetime_spent := 5, daily_spent := 5, monthly_spent := 5 }

/-- dAcct whose stored reset times lie one whole window ahead of time 0:
the window quotients differ from those of time 0, but backwards in time. -/
def dAcctAhead : DebitAccount := { dAcct with
  last_daily_reset := 86400,
  last_monthly_reset := 2592000 }

/-- Final account of the concrete reserve 40 / commit 25 / release 10 run
on dAcct (computed by evaluation). -/
def dAcctFinal : DebitAccount := { dAcct with
  usdc_available := 70, usdc_reserved := 5, lifetime_spent := 25,
  daily_spent := 25, monthly_spent := 25 }

theorem error_bind {α β : Type} (e : CreditError) (f : α → Except CreditError β) :
    (Except.error e : Except CreditError α) >>= f = .error e := rfl

theorem ok_bind {α β : Type} (a : α) (f : α → Except CreditError β) :
    (Except.ok a : Except CreditError α) >>= f = f a := rfl

theorem bind_ok_iff {α β : Type} {x : Except CreditError α} {f : α → Except CreditError β}
    {b : β} : x >>= f = .ok b ↔ ∃ a, x = .ok a ∧ f a = .ok b := by
  cases x with
  | error e => simp [error_bind]
  | ok a => simp [ok_bind]

theorem require_ok_iff {p : Prop} [Decidable p] {e : CreditError} {u : Unit} :
    require p e = .ok u ↔ p := by
  obtain ⟨⟩ := u
  by_cases h : p <;> simp [require, h]

theorem require_error {p : Prop} [Decidable p] {e : CreditError} (h : ¬ p) :
    require p e = .error e := by
  simp [require, h]

theorem require_ok_of {p : Prop} [Decidable p] {e : CreditError} (h : p) :
    require p e = .ok () := by
  simp [require, h]

theorem checkedSub64_ok_iff {a b c : Nat} :
    checkedSub64 a b = .ok c ↔ b ≤ a ∧ a - b = c := by
  unfold checkedSub64
  by_cases h : b ≤ a <;> simp [h]

theorem checkedAdd64_ok_iff {a b c : Nat} :
    checkedAdd64 a b = .ok c ↔ a + b ≤ U64_MAX ∧ a + b = c := by
  unfold checkedAdd64
  by_cases h : a + b ≤ U64_MAX <;> simp [h]

theorem checkedAdd128_ok_iff {a b c : Nat} :
    checkedAdd128 a b = .ok c ↔ a + b ≤ U128_MAX ∧ a + b = c := by
  unfold checkedAdd128
  by_cases h : a + b ≤ U128_MAX <;> simp [h]

theorem checkedMul128_ok_iff {a b c : Nat} :
    checkedMul128 a b = .ok c ↔ a * b ≤ U128_MAX ∧ a * b = c := by
  unfold checkedMul128
  by_cases h : a * b ≤ U128_MAX <;> simp [h]

theorem checkedDiv128_ok_iff {a b c : Nat} :
    checkedDiv128 a b = .ok c ↔ b ≠ 0 ∧ a / b = c := by
  unfold checkedDiv128
  by_cases h : b = 0 <;> simp [h]

/-- Quotients by the Ray base stay below 2^64 whenever the dividend fits in
u128: the guard that rules out the final u64 truncation. -/
theorem div_ray_lt_u64 {m snap : Nat} (hsnap : RAY_PRECISION ≤ snap)
    (hm : m ≤ U128_MAX) : m / snap < 2 ^ 64 := by
  have h1 : m / snap ≤ m / RAY_PRECISION :=
    Nat.div_le_div_left hsnap (by unfold RAY_PRECISION; positivity)
  have h2 : m / RAY_PRECISION ≤ U128_MAX / RAY_PRECISION :=
    Nat.div_le_div_right hm
  have h3 : U128_MAX / RAY_PRECISION < 2 ^ 64 := by decide
  omega

/-- C5 (amended): calculate_debt_with_interest returns 0 whenever
debt_usdc = 0, even for a zero or stale snapshot, since the index-ratio
multiplication and division are skipped; and whenever the snapshot is at
least the Ray base (its genesis value, below which no reachable snapshot
lies), a successful call returns exactly
floor(debt * current_index / snapshot), which is at least the principal
when current_index ≥ snapshot.  Without the Ray lower bound on the
snapshot the final u64 cast can truncate (see the counterexample). -/
theorem debt_with_interest_amended (p : UserPosition) (idx : Nat) :
    (p.debt_usdc = 0 → calculate_debt_with_interest p idx = .ok 0) ∧
    (RAY_PRECISION ≤ p.borrow_index_snapshot →
      ∀ r, calculate_debt_with_interest p idx = .ok r →
        r = p.debt_usdc * idx / p.borrow_index_snapshot ∧
        (p.borrow_index_snapshot ≤ idx → p.debt_usdc ≤ r)) := by
  constructor
  · intro h0
    simp [calculate_debt_with_interest, h0]
  · intro hsnap r hok
    by_cases h0 : p.debt_usdc = 0
    · simp [calculate_debt_with_interest, h0] at hok
      subst hok
      simp [h0]
    · unfold calculate_debt_with_interest at hok
      rw [if_neg h0, bind_ok_iff] at hok
      obtain ⟨m, hm, hok⟩ := hok
      rw [bind_ok_iff] at hok
      obtain ⟨d, hd, hok⟩ := hok
      rw [checkedMul128_ok_iff] at hm
      rw [checkedDiv128_ok_iff] at hd
      obtain ⟨hmle, hmeq⟩ := hm
      obtain ⟨-, hdeq⟩ := hd
      have hok2 : d % 2 ^ 64 = r := by
        simpa using hok
      have hdlt : d < 2 ^ 64 := by
        subst hmeq hdeq
        exact div_ray_lt_u64 hsnap hmle
      have hr : r = d := by
        rw [← hok2, Nat.mod_eq_of_lt hdlt]
      subst hr hmeq hdeq
      refine ⟨rfl, fun hle => ?_⟩
      have hsnap0 : 0 < p.borrow_index_snapshot := by
        have : (0:Nat) < RAY_PRECISION := by unfold RAY_PRECISION; positivity
        omega
      rw [Nat.le_div_iff_mul_le hsnap0]
      exact Nat.mul_le_mul_left _ hle

/-- C5 counterexample: with a sub-Ray snapshot (snapshot 1, index 4) and
principal 2^63, the claim's unrestricted statement fails: the index ratio
is favourable (index ≥ snapshot) yet the u64 cast truncates
2^65 to 0, so the result is neither floor(debt * index / snapshot) nor
at least the principal. -/
theorem debt_with_interest_truncates :
    posTrunc.borrow_index_snapshot ≤ 4 ∧
    0 < posTrunc.debt_usdc ∧
    calculate_debt_with_interest posTrunc 4 = .ok 0 ∧
    posTrunc.debt_usdc * 4 / posTrunc.borrow_index_snapshot ≠ 0 ∧
    ¬ posTrunc.debt_usdc ≤ 0 := by
  refine ⟨by decide, by decide, by decide, by decide, by decide⟩

/-- C5 witness: the zero-debt branch even at snapshot 0, and scenario B
(principal 1000, snapshot 1.0e27, index 1.1e27 gives exactly 1100 ≥
1000), obtained from the amended theorem at concrete inputs. -/
theorem debt_with_interest_amended_witness :
    calculate_debt_with_interest { posNoDebt with borrow_index_snapshot := 0 } 7 = .ok 0 ∧
    (1100 : Nat) = posScenB.debt_usdc * (11 * 10 ^ 26) / posScenB.borrow_index_snapshot ∧
    posScenB.debt_usdc ≤ 1100 := by
  refine ⟨(debt_with_interest_amended { posNoDebt with borrow_index_snapshot := 0 } 7).1 rfl,
    ((debt_with_interest_amended posScenB (11 * 10 ^ 26)).2 (by decide) 1100 (by decide)).1,
    ((debt_with_interest_amended posScenB (11 * 10 ^ 26)).2 (by decide) 1100 (by decide)).2
      (by decide)⟩

/-- C6: calculate_borrow_index is idempotent at zero elapsed time (the
input index is returned unchanged) and monotonic non-decreasing: whatever
the rate (a u16, hence ≥ 0) and elapsed time, any index it returns is at
least the input index.  On arithmetic overflow it returns MathOverflow and
no index at all, per the spec's failure contract. -/
theorem borrow_index_monotonic (idx rate : Nat) (t : Int) :
    calculate_borrow_index idx rate 0 = .ok idx ∧
    (∀ r, calculate_borrow_index idx rate t = .ok r → idx ≤ r) := by
  constructor
  · simp [calculate_borrow_index]
  · intro r hok
    unfold calculate_borrow_index at hok
    by_cases ht : t ≤ 0
    · rw [if_pos ht] at hok
      obtain rfl : idx = r := by simpa using hok
      exact le_refl _
    · rw [if_neg ht] at hok
      rw [bind_ok_iff] at hok
      obtain ⟨a, -, hok⟩ := hok
      rw [bind_ok_iff] at hok
      obtain ⟨rate_ray, -, hok⟩ := hok
      rw [bind_ok_iff] at hok
      obtain ⟨b, -, hok⟩ := hok
      rw [bind_ok_iff] at hok
      obtain ⟨delta, -, hok⟩ := hok
      rw [bind_ok_iff] at hok
      obtain ⟨s, hs, hok⟩ := hok
      rw [bind_ok_iff] at hok
      obtain ⟨n, hn, hok⟩ := hok
      rw [bind_ok_iff] at hok
      obtain ⟨q, hq, hok⟩ := hok
      rw [checkedAdd128_ok_iff] at hs
      rw [checkedMul128_ok_iff] at hn
      rw [checkedDiv128_ok_iff] at hq
      obtain ⟨-, hseq⟩ := hs
      obtain ⟨-, hneq⟩ := hn
      obtain ⟨-, hqeq⟩ := hq
      obtain rfl : q = r := by simpa using hok
      subst hqeq hneq
      have hray : 0 < RAY_PRECISION := by unfold RAY_PRECISION; positivity
      rw [Nat.le_div_iff_mul_le hray]
      have : RAY_PRECISION ≤ s := by omega
      exact Nat.mul_le_mul_left _ this

/-- C6 witness: a year at 12% APR on an index of 1e9 yields 1.12e9 ≥ 1e9,
and zero elapsed time returns the input unchanged. -/
theorem borrow_index_monotonic_witness :
    calculate_borrow_index 1000000000 1200 0 = .ok 1000000000 ∧
    (1000000000 : Nat) ≤ 1120000000 := by
  refine ⟨(borrow_index_monotonic 1000000000 1200 0).1,
    (borrow_index_monotonic 1000000000 1200 31536000).2 1120000000 (by decide)⟩

/-- C8 (amended): the window boundary tests needs_daily_reset and
needs_monthly_reset report a crossing iff the current time's truncating
quotient by the window length strictly exceeds the stored reset time's
quotient — not merely differs from it: quotients that differ with the
current quotient below the stored one (time before the stored reset) are
not reported as crossings.  A reported crossing does imply the quotients
differ. -/
theorem window_reset_iff (a : DebitAccount) (t : Int) :
    (needs_daily_reset a t = true ↔
      a.last_daily_reset.tdiv 86400 < t.tdiv 86400) ∧
    (needs_monthly_reset a t = true ↔
      a.last_monthly_reset.tdiv 2592000 < t.tdiv 2592000) ∧
    (needs_daily_reset a t = true →
      t.tdiv 86400 ≠ a.last_daily_reset.tdiv 86400) ∧
    (needs_monthly_reset a t = true →
      t.tdiv 2592000 ≠ a.last_monthly_reset.tdiv 2592000) := by
  have hd : needs_daily_reset a t = true ↔
      a.last_daily_reset.tdiv 86400 < t.tdiv 86400 := by
    simp [needs_daily_reset, SECONDS_PER_DAY]
  have hm : needs_monthly_reset a t = true ↔
      a.last_monthly_reset.tdiv 2592000 < t.tdiv 2592000 := by
    simp [needs_monthly_reset, SECONDS_PER_MONTH]
  refine ⟨hd, hm, fun h => ?_, fun h => ?_⟩
  · exact ne_of_gt (hd.mp h)
  · exact ne_of_gt (hm.mp h)

/-- C8 counterexample: an account whose stored reset times are one full
window ahead of the current time 0.  The quotients differ (0 vs 1 daily, 0
vs 1 monthly), so the claim's iff demands a reported crossing, but both
tests report false. -/
theorem window_reset_not_ne :
    needs_daily_reset dAcctAhead 0 = false ∧
    (0 : Int).tdiv 86400 ≠ dAcctAhead.last_daily_reset.tdiv 86400 ∧
    needs_monthly_reset dAcctAhead 0 = false ∧
    (0 : Int).tdiv 2592000 ≠ dAcctAhead.last_monthly_reset.tdiv 2592000 := by
  refine ⟨by decide, by decide, by decide, by decide⟩

/-- C8 witness: a genuine forward crossing (time one day / one month after
reset time 0) is reported, and its quotients indeed differ. -/
theorem window_reset_iff_witness :
    needs_daily_reset dAcct 86400 = true ∧
    (86400 : Int).tdiv 86400 ≠ dAcct.last_daily_reset.tdiv 86400 ∧
    needs_monthly_reset dAcct 2592000 = true := by
  refine ⟨(window_reset_iff dAcct 86400).1.mpr (by decide),
    (window_reset_iff dAcct 86400).2.2.1 ((window_reset_iff dAcct 86400).1.mpr (by decide)),
    (window_reset_iff dAcct 2592000).2.1.mpr (by decide)⟩

theorem reserve_funds_sum {a : DebitAccount} {amt : Nat} {a' : DebitAccount}
    (h : reserve_funds a amt = .ok a') :
    a'.usdc_available + a'.usdc_reserved = a.usdc_available + a.usdc_reserved ∧
    a'.lifetime_spent = a.lifetime_spent ∧ amt ≤ a.usdc_available := by
  unfold reserve_funds at h
  rw [bind_ok_iff] at h
  obtain ⟨u, hu, h⟩ := h
  rw [require_ok_iff] at hu
  rw [bind_ok_iff] at h
  obtain ⟨av, hav, h⟩ := h
  rw [bind_ok_iff] at h
  obtain ⟨rv, hrv, h⟩ := h
  rw [checkedSub64_ok_iff] at hav
  rw [checkedAdd64_ok_iff] at hrv
  have ha' : a' = { a with usdc_available := av, usdc_reserved := rv } :=
    (Except.ok.inj h).symm
  subst ha'
  refine ⟨?_, rfl, hu⟩
  show av + rv = a.usdc_available + a.usdc_reserved
  omega

theorem release_reserved_sum {a : DebitAccount} {amt : Nat} {a' : DebitAccount}
    (h : release_reserved a amt = .ok a') :
    a'.usdc_available + a'.usdc_reserved = a.usdc_available + a.usdc_reserved ∧
    a'.lifetime_spent = a.lifetime_spent ∧ amt ≤ a.usdc_reserved := by
  unfold release_reserved at h
  rw [bind_ok_iff] at h
  obtain ⟨u, hu, h⟩ := h
  rw [require_ok_iff] at hu
  rw [bind_ok_iff] at h
  obtain ⟨rv, hrv, h⟩ := h
  rw [bind_ok_iff] at h
  obtain ⟨av, hav, h⟩ := h
  rw [checkedSub64_ok_iff] at hrv
  rw [checkedAdd64_ok_iff] at hav
  have ha' : a' = { a with usdc_reserved := rv, usdc_available := av } :=
    (Except.ok.inj h).symm
  subst ha'
  refine ⟨?_, rfl, hu⟩
  show av + rv = a.usdc_available + a.usdc_reserved
  omega

theorem commit_daily_core_fields {a : DebitAccount} {amt : Nat} {t : Int} {a' : DebitAccount}
    (h : commit_daily a amt t = .ok a') :
    a'.usdc_available = a.usdc_available ∧ a'.usdc_reserved = a.usdc_reserved ∧
    a'.lifetime_spent = a.lifetime_spent := by
  unfold commit_daily at h
  by_cases hc : needs_daily_reset a t
  · rw [if_pos hc] at h
    have he := (Except.ok.inj h).symm
    subst he
    exact ⟨rfl, rfl, rfl⟩
  · rw [if_neg hc, bind_ok_iff] at h
    obtain ⟨ds, -, h⟩ := h
    have he := (Except.ok.inj h).symm
    subst he
    exact ⟨rfl, rfl, rfl⟩

theorem commit_monthly_core_fields {a : DebitAccount} {amt : Nat} {t : Int} {a' : DebitAccount}
    (h : commit_monthly a amt t = .ok a') :
    a'.usdc_available = a.usdc_available ∧ a'.usdc_reserved = a.usdc_reserved ∧
    a'.lifetime_spent = a.lifetime_spent := by
  unfold commit_monthly at h
  by_cases hc : needs_monthly_reset a t
  · rw [if_pos hc] at h
    have he := (Except.ok.inj h).symm
    subst he
    exact ⟨rfl, rfl, rfl⟩
  · rw [if_neg hc, bind_ok_iff] at h
    obtain ⟨ms, -, h⟩ := h
    have he := (Except.ok.inj h).symm
    subst he
    exact ⟨rfl, rfl, rfl⟩

theorem commit_reserved_sum {a : DebitAccount} {amt : Nat} {t : Int} {a' : DebitAccount}
    (h : commit_reserved a amt t = .ok a') :
    a'.usdc_available + a'.usdc_reserved + amt = a.usdc_available + a.usdc_reserved ∧
    a'.lifetime_spent = a.lifetime_spent + amt ∧ amt ≤ a.usdc_reserved := by
  unfold commit_reserved at h
  rw [bind_ok_iff] at h
  obtain ⟨u, hu, h⟩ := h
  rw [require_ok_iff] at hu
  rw [bind_ok_iff] at h
  obtain ⟨rv, hrv, h⟩ := h
  rw [bind_ok_iff] at h
  obtain ⟨ls, hls, h⟩ := h
  rw [checkedSub64_ok_iff] at hrv
  rw [checkedAdd64_ok_iff] at hls
  rw [bind_ok_iff] at h
  obtain ⟨c, hc, h⟩ := h
  rw [bind_ok_iff] at h
  obtain ⟨d, hd, h⟩ := h
  obtain rfl : d = a' := Except.ok.inj h
  obtain ⟨hc1, hc2, hc3⟩ := commit_daily_core_fields hc
  obtain ⟨hd1, hd2, hd3⟩ := commit_monthly_core_fields hd
  simp only [] at hc1 hc2 hc3
  refine ⟨?_, ?_, ?_⟩ <;> omega

theorem applyDebitOp_sum {a : DebitAccount} {op : DebitOp} {a' : DebitAccount}
    (h : applyDebitOp a op = .ok a') :
    a'.usdc_available + a'.usdc_reserved + a'.lifetime_spent
      = a.usdc_available + a.usdc_reserved + a.lifetime_spent := by
  cases op with
  | reserve amt =>
    obtain ⟨h1, h2, -⟩ := reserve_funds_sum h
    omega
  | commit amt t =>
    obtain ⟨h1, h2, -⟩ := commit_reserved_sum h
    omega
  | release amt =>
    obtain ⟨h1, h2, -⟩ := release_reserved_sum h
    omega

theorem applyDebitOps_sum : ∀ (ops : List DebitOp) (a a' : DebitAccount),
    applyDebitOps a ops = .ok a' →
    a'.usdc_available + a'.usdc_reserved + a'.lifetime_spent
      = a.usdc_available + a.usdc_reserved + a.lifetime_spent := by
  intro ops
  induction ops with
  | nil =>
    intro a a' h
    obtain rfl : a = a' := by simpa [applyDebitOps] using h
    rfl
  | cons op ops ih =>
    intro a a' h
    unfold applyDebitOps at h
    rw [bind_ok_iff] at h
    obtain ⟨b, hb, h⟩ := h
    rw [ih b a' h, applyDebitOp_sum hb]

/-- C9: over any sequence of reserve / commit / release operations on one
debit account, available + reserved is preserved by every successful
reserve and every successful release; a successful commit moves exactly
the committed amount out of available + reserved and into lifetime_spent;
and along any successful sequence available + reserved + lifetime_spent is
invariant.  Balances are u64s (never negative), and each operation's
require-guard ensures its checked subtraction cannot underflow. -/
theorem debit_ledger_conservation (a : DebitAccount) :
    (∀ amt a', reserve_funds a amt = .ok a' →
      a'.usdc_available + a'.usdc_reserved = a.usdc_available + a.usdc_reserved ∧
      a'.lifetime_spent = a.lifetime_spent) ∧
    (∀ amt a', release_reserved a amt = .ok a' →
      a'.usdc_available + a'.usdc_reserved = a.usdc_available + a.usdc_reserved ∧
      a'.lifetime_spent = a.lifetime_spent) ∧
    (∀ amt t a', commit_reserved a amt t = .ok a' →
      a'.usdc_available + a'.usdc_reserved + amt = a.usdc_available + a.usdc_reserved ∧
      a'.lifetime_spent = a.lifetime_spent + amt) ∧
    (∀ ops a', applyDebitOps a ops = .ok a' →
      a'.usdc_available + a'.usdc_reserved + a'.lifetime_spent
        = a.usdc_available + a.usdc_reserved + a.lifetime_spent) := by
  refine ⟨fun amt a' h => ?_, fun amt a' h => ?_, fun amt t a' h => ?_,
    fun ops a' h => applyDebitOps_sum ops a a' h⟩
  · obtain ⟨h1, h2, -⟩ := reserve_funds_sum h
    exact ⟨h1, h2⟩
  · obtain ⟨h1, h2, -⟩ := release_reserved_sum h
    exact ⟨h1, h2⟩
  · obtain ⟨h1, h2, -⟩ := commit_reserved_sum h
    exact ⟨h1, h2⟩

/-- C9 witness: the concrete run reserve 40, commit 25, release 10 on an
account with 100 available ends with 70 available, 5 reserved and 25
lifetime-spent, and the conservation theorem instantiates to that run. -/
theorem debit_ledger_conservation_witness :
    applyDebitOps dAcct [DebitOp.reserve 40, DebitOp.commit 25 0, DebitOp.release 10]
      = .ok dAcctFinal ∧
    dAcctFinal.usdc_available + dAcctFinal.usdc_reserved + dAcctFinal.lifetime_spent
      = dAcct.usdc_available + dAcct.usdc_reserved + dAcct.lifetime_spent := by
  refine ⟨by decide, (debit_ledger_conservation dAcct).2.2.2
    [DebitOp.reserve 40, DebitOp.commit 25 0, DebitOp.release 10] dAcctFinal (by decide)⟩

/-- Inversion of a successful liquidate_handler run: the accrued index and
debt it computed, and how the persisted outcome relates to them. -/
theorem liquidate_handler_inv {config : Config} {pos : UserPosition}
    {ubl repay : Nat} {now : Int} {slot : Nat}
    {oracle : Except CreditError Nat} {t1 t2 : Except CreditError Unit}
    {out : LiquidateOutcome}
    (hok : liquidate_handler config pos ubl repay now slot oracle t1 t2 = .ok out) :
    ∃ idx d price hf,
      calculate_borrow_index config.global_borrow_index config.interest_rate_bps
        (i64SaturatingSub now config.last_update_timestamp) = .ok idx ∧
      calculate_debt_with_interest pos idx = .ok d ∧
      0 < d ∧
      oracle = .ok price ∧
      calculate_health_factor pos price config.liquidation_threshold_bps d = .ok hf ∧
      hf < BPS_PRECISION ∧
      out.repaid = min (min repay (d / 2)) d ∧
      out.seized ≤ pos.collateral_amount ∧
      out.position.debt_usdc = d - out.repaid := by
  unfold liquidate_handler at hok
  rw [bind_ok_iff] at hok
  obtain ⟨u1, hu1, hok⟩ := hok
  rw [bind_ok_iff] at hok
  obtain ⟨u2, hu2, hok⟩ := hok
  rw [bind_ok_iff] at hok
  obtain ⟨u3, hu3, hok⟩ := hok
  rw [bind_ok_iff] at hok
  obtain ⟨idx, hidx, hok⟩ := hok
  rw [bind_ok_iff] at hok
  obtain ⟨d, hd, hok⟩ := hok
  rw [bind_ok_iff] at hok
  obtain ⟨u4, hu4, hok⟩ := hok
  rw [bind_ok_iff] at hok
  obtain ⟨price, hprice, hok⟩ := hok
  rw [bind_ok_iff] at hok
  obtain ⟨hf, hhf, hok⟩ := hok
  rw [bind_ok_iff] at hok
  obtain ⟨u5, hu5, hok⟩ := hok
  rw [bind_ok_iff] at hok
  obtain ⟨bonus, hbonus, hok⟩ := hok
  rw [bind_ok_iff] at hok
  obtain ⟨tv, htv, hok⟩ := hok
  rw [bind_ok_iff] at hok
  obtain ⟨cts, hcts, hok⟩ := hok
  rw [bind_ok_iff] at hok
  obtain ⟨v1, hv1, hok⟩ := hok
  rw [bind_ok_iff] at hok
  obtain ⟨v2, hv2, hok⟩ := hok
  rw [bind_ok_iff] at hok
  obtain ⟨nd, hnd, hok⟩ := hok
  rw [bind_ok_iff] at hok
  obtain ⟨nc, hnc, hok⟩ := hok
  rw [bind_ok_iff] at hok
  obtain ⟨td, htd, hok⟩ := hok
  rw [bind_ok_iff] at hok
  obtain ⟨tc, htc, hok⟩ := hok
  rw [require_ok_iff] at hu4 hu5
  rw [checkedSub64_ok_iff] at hnd
  have hout := (Except.ok.inj hok).symm
  subst hout
  refine ⟨idx, d, price, hf, hidx, hd, hu4, hprice, hhf, hu5, rfl, ?_, ?_⟩
  · show min cts pos.collateral_amount ≤ pos.collateral_amount
    exact Nat.min_le_right _ _
  · show nd = d - min (min repay (d / 2)) d
    omega

/-- C3: a successful liquidate call repays exactly
min(repay_amount, floor(current_debt / 2), current_debt) where
current_debt is the debt accrued at the freshly refreshed index; the
repayment hence never exceeds floor(current_debt / 2); the remaining debt
is current_debt minus the repayment; and the collateral seized never
exceeds the collateral held before the call. -/
theorem liquidate_caps (config : Config) (pos : UserPosition)
    (ubl repay : Nat) (now : Int) (slot : Nat)
    (oracle : Except CreditError Nat) (t1 t2 : Except CreditError Unit)
    (out : LiquidateOutcome)
    (hok : liquidate_handler config pos ubl repay now slot oracle t1 t2 = .ok out) :
    ∃ idx d,
      calculate_borrow_index config.global_borrow_index config.interest_rate_bps
        (i64SaturatingSub now config.last_update_timestamp) = .ok idx ∧
      calculate_debt_with_interest pos idx = .ok d ∧
      out.repaid = min (min repay (d / 2)) d ∧
      out.repaid ≤ d / 2 ∧
      out.position.debt_usdc = d - out.repaid ∧
      out.seized ≤ pos.collateral_amount := by
  obtain ⟨idx, d, price, hf, hidx, hd, hd0, hprice, hhf, hlt, hrep, hseiz, hdebt⟩ :=
    liquidate_handler_inv hok
  refine ⟨idx, d, hidx, hd, hrep, ?_, hdebt, hseiz⟩
  rw [hrep]
  exact le_trans (Nat.min_le_left _ _) (Nat.min_le_right _ _)

/-- C3 witness: the concrete liquidation of posLiq (debt 1000 USDC,
health factor 6000) with repay_amount 400000000 under cfgBase. -/
theorem liquidate_caps_witness :
    ∃ idx d,
      calculate_borrow_index cfgBase.global_borrow_index cfgBase.interest_rate_bps
        (i64SaturatingSub 0 cfgBase.last_update_timestamp) = .ok idx ∧
      calculate_debt_with_interest posLiq idx = .ok d ∧
      outLiq.repaid = min (min 400000000 (d / 2)) d ∧
      outLiq.repaid ≤ d / 2 ∧
      outLiq.position.debt_usdc = d - outLiq.repaid ∧
      outLiq.seized ≤ posLiq.collateral_amount :=
  liquidate_caps cfgBase posLiq 7 400000000 0 0 (.ok 1000000) (.ok ()) (.ok ())
    outLiq (by decide)

/-- C10: after any successful liquidate call the position's debt is still
strictly positive: the handler requires accrued debt d > 0 and repays at
most floor(d / 2), leaving at least d - floor(d / 2) ≥ 1, so one
liquidation never clears a position entirely. -/
theorem liquidate_leaves_debt (config : Config) (pos : UserPosition)
    (ubl repay : Nat) (now : Int) (slot : Nat)
    (oracle : Except CreditError Nat) (t1 t2 : Except CreditError Unit)
    (out : LiquidateOutcome)
    (hok : liquidate_handler config pos ubl repay now slot oracle t1 t2 = .ok out) :
    0 < out.position.debt_usdc := by
  obtain ⟨idx, d, price, hf, hidx, hd, hd0, hprice, hhf, hlt, hrep, hseiz, hdebt⟩ :=
    liquidate_handler_inv hok
  have hhalf : d / 2 < d := Nat.div_lt_self hd0 one_lt_two
  have hm : min (min repay (d / 2)) d ≤ d / 2 :=
    le_trans (Nat.min_le_left _ _) (Nat.min_le_right _ _)
  omega

/-- C10 witness: the concrete liquidation of posLiq leaves 600 USDC of
debt. -/
theorem liquidate_leaves_debt_witness :
    outLiq.position.debt_usdc > 0 :=
  liquidate_leaves_debt cfgBase posLiq 7 400000000 0 0 (.ok 1000000) (.ok ()) (.ok ())
    outLiq (by decide)

/-- C4: under the preconditions the handler checks before the health gate
(not paused, matching owner, positive repay amount, index accrual and debt
rebase succeed with positive accrued debt, oracle delivers a price, health
factor computes), liquidation fails with PositionHealthy whenever the
health factor at the validated price is at least 10000 bps — and the error
return models the transaction aborting with no record mutated; dually, any
successful run had health factor strictly below 10000 bps. -/
theorem liquidate_requires_insolvency (config : Config) (pos : UserPosition)
    (ubl repay : Nat) (now : Int) (slot : Nat) (price : Nat)
    (t1 t2 : Except CreditError Unit) (idx d hf : Nat)
    (hp : config.paused = false)
    (howner : ubl = pos.owner)
    (hrepay : repay > 0)
    (hidx : calculate_borrow_index config.global_borrow_index config.interest_rate_bps
      (i64SaturatingSub now config.last_update_timestamp) = .ok idx)
    (hd : calculate_debt_with_interest pos idx = .ok d)
    (hd0 : d > 0)
    (hhf : calculate_health_factor pos price config.liquidation_threshold_bps d = .ok hf) :
    (BPS_PRECISION ≤ hf →
      liquidate_handler config pos ubl repay now slot (.ok price) t1 t2
        = .error .PositionHealthy) ∧
    (∀ out, liquidate_handler config pos ubl repay now slot (.ok price) t1 t2 = .ok out →
      hf < BPS_PRECISION) := by
  constructor
  · intro hge
    have hnot : ¬ (hf < BPS_PRECISION) := not_lt.mpr hge
    simp only [liquidate_handler, require_ok_of hp, require_ok_of howner,
      require_ok_of hrepay, ok_bind, hidx, hd, require_ok_of hd0, hhf,
      require_error hnot, error_bind]
  · intro out hok
    obtain ⟨idx2, d2, price2, hf2, hidx2, hd2, hd02, hprice2, hhf2, hlt2, -, -, -⟩ :=
      liquidate_handler_inv hok
    rw [hidx] at hidx2
    obtain rfl := Except.ok.inj hidx2
    rw [hd] at hd2
    obtain rfl := Except.ok.inj hd2
    obtain rfl := Except.ok.inj hprice2
    rw [hhf] at hhf2
    obtain rfl := Except.ok.inj hhf2
    exact hlt2

/-- C4 witness: posHealthy (health factor 60000000 ≥ 10000) is rejected
with PositionHealthy, and the successful liquidation of posLiq had health
factor 6000 < 10000. -/
theorem liquidate_requires_insolvency_witness :
    liquidate_handler cfgBase posHealthy 7 400000000 0 0 (.ok 1000000) (.ok ()) (.ok ())
      = .error .PositionHealthy ∧
    (6000 : Nat) < BPS_PRECISION := by
  refine ⟨(liquidate_requires_insolvency cfgBase posHealthy 7 400000000 0 0 1000000
      (.ok ()) (.ok ()) RAY_PRECISION 100000 60000000 rfl rfl (by decide) (by decide)
      (by decide) (by decide) (by decide)).1 (by decide),
    (liquidate_requires_insolvency cfgBase posLiq 7 400000000 0 0 1000000
      (.ok ()) (.ok ()) RAY_PRECISION 1000000000 6000 rfl rfl (by decide) (by decide)
      (by decide) (by decide) (by decide)).2 outLiq (by decide)⟩

/-- C7: a successful repay deducts exactly
actual_repay = min(amount, current_debt) where current_debt is the debt
accrued at the handler's refreshed index: the residual position debt is
current_debt - actual_repay, hence exactly 0 (and never negative — debts
are u64) whenever the amount covers the debt, and the aggregate
total_debt_usdc is decremented by the actual amount with saturating
subtraction. -/
theorem repay_deducts_min (config : Config) (pos : UserPosition)
    (amount : Nat) (now : Int) (c2 : Config) (p2 : UserPosition) (actual : Nat)
    (hok : repay_usdc_handler config pos amount now = .ok (c2, p2, actual)) :
    ∃ idx d,
      sixfold_borrow_index config now = .ok idx ∧
      calculate_debt_with_interest pos idx = .ok d ∧
      actual = min amount d ∧
      p2.debt_usdc = d - actual ∧
      (d ≤ amount → p2.debt_usdc = 0) ∧
      c2.total_debt_usdc = config.total_debt_usdc - actual := by
  unfold repay_usdc_handler at hok
  rw [bind_ok_iff] at hok
  obtain ⟨idx, hidx, hok⟩ := hok
  rw [bind_ok_iff] at hok
  obtain ⟨d, hd, hok⟩ := hok
  rw [bind_ok_iff] at hok
  obtain ⟨nd, hnd, hok⟩ := hok
  rw [checkedSub64_ok_iff] at hnd
  have hout := (Except.ok.inj hok).symm
  rw [Prod.mk.injEq, Prod.mk.injEq] at hout
  obtain ⟨hc2, hp2, hact⟩ := hout
  subst hc2 hp2 hact
  refine ⟨idx, d, hidx, hd, rfl, ?_, ?_, rfl⟩
  · show nd = d - min amount d
    omega
  · intro hcover
    show nd = 0
    have : min amount d = d := by omega
    omega

/-- C7 witness: repaying 250 against an accrued debt of 100 deducts only
100, zeroes the position debt, and saturates the aggregate (50 - 100 =
0). -/
theorem repay_deducts_min_witness :
    ∃ idx d,
      sixfold_borrow_index cfgRepay 0 = .ok idx ∧
      calculate_debt_with_interest posRepay idx = .ok d ∧
      (100 : Nat) = min 250 d ∧
      posRepaid.debt_usdc = d - 100 ∧
      (d ≤ 250 → posRepaid.debt_usdc = 0) ∧
      cfgRepaid.total_debt_usdc = cfgRepay.total_debt_usdc - 100 :=
  repay_deducts_min cfgRepay posRepay 250 0 cfgRepaid posRepaid 100 (by decide)

/-- C1 evidence: withdraw_collateral gates withdrawals on the constant
HEALTH_FACTOR_BUFFER_BPS, which equals 1100, not the 11000 bps the spec
and the constant's own comment (a 1.10 health factor, i.e. 11000 on the
scale where 10000 = 1.0) prescribe.  Concretely, posWithdraw (2000000
collateral units, 1000 USDC debt) withdraws 1000000 units successfully
even though the simulated post-withdrawal health factor is 6000 bps —
below the claimed 11000 threshold and even below the 10000 solvency line,
so the withdrawal leaves the position insolvent instead of failing with
HealthFactorTooLow. -/
theorem withdraw_buffer_below_spec :
    HEALTH_FACTOR_BUFFER_BPS = 1100 ∧
    posWithdraw.debt_usdc > 0 ∧
    withdraw_collateral_handler cfgBase posWithdraw 1000000 0 0 (.ok 1000000) (.ok ())
      = .ok (cfgWithdrawn, posWithdrawn) ∧
    calculate_health_factor posWithdrawn 1000000 cfgBase.liquidation_threshold_bps
      1000000000 = .ok 6000 ∧
    (6000 : Nat) < 11000 ∧
    (6000 : Nat) < BPS_PRECISION := by
  refine ⟨by decide, by decide, by decide, by decide, by decide, by decide⟩

/-- C2 (amended): when the protocol is paused, the operations that do
check the circuit breaker — deposit_collateral, withdraw_collateral,
liquidate, and debit_spend (behind its admin-authority account
constraint) — all fail with ProtocolPaused, and the error return models
the transaction aborting with every record unchanged.  record_debt,
repay_usdc, and debit_settle perform no pause check at all (see the
counterexample), so the claim's coverage of every mutating non-admin
operation does not hold. -/
theorem paused_gates_amended (config : Config) (pos : UserPosition) (acct : DebitAccount)
    (ubl amount authority : Nat) (now : Int) (slot : Nat)
    (oracle : Except CreditError Nat) (t1 t2 t3 t4 : Except CreditError Unit)
    (hp : config.paused = true)
    (hauth : authority = config.admin) :
    deposit_collateral_handler config pos amount now slot oracle t1
      = .error .ProtocolPaused ∧
    withdraw_collateral_handler config pos amount now slot oracle t2
      = .error .ProtocolPaused ∧
    liquidate_handler config pos ubl amount now slot oracle t3 t4
      = .error .ProtocolPaused ∧
    debit_spend_handler config acct authority amount now
      = .error .ProtocolPaused := by
  have hfalse : ¬ (config.paused = false) := by simp [hp]
  refine ⟨?_, ?_, ?_, ?_⟩ <;>
    simp only [deposit_collateral_handler, withdraw_collateral_handler,
      liquidate_handler, debit_spend_handler, require_error hfalse,
      require_ok_of hauth, error_bind, ok_bind]

/-- C2 counterexample: with the circuit breaker set, record_debt,
repay_usdc, and debit_settle all succeed and mutate their records —
record_debt adds 5 USDC of debt, debit_settle commits a reservation —
instead of failing with ProtocolPaused as the claim requires. -/
theorem paused_not_enforced_everywhere :
    cfgPaused.paused = true ∧
    record_debt_handler cfgPaused posNoDebt 5 0 = .ok (cfgRecorded, posRecorded) ∧
    repay_usdc_handler cfgPaused posNoDebt 5 0 = .ok (cfgPaused, posNoDebt, 0) ∧
    debit_settle_handler cfgPaused dAcctReserved 9 5 0 = .ok dAcctSettled := by
  refine ⟨by decide, by decide, by decide, by decide⟩

/-- C2 witness: the amended pause gate at concrete inputs. -/
theorem paused_gates_amended_witness :
    deposit_collateral_handler cfgPaused posWithdraw 5 0 0 (.ok 1) (.ok ())
      = .error .ProtocolPaused ∧
    withdraw_collateral_handler cfgPaused posWithdraw 5 0 0 (.ok 1) (.ok ())
      = .error .ProtocolPaused ∧
    liquidate_handler cfgPaused posWithdraw 7 5 0 0 (.ok 1) (.ok ()) (.ok ())
      = .error .ProtocolPaused ∧
    debit_spend_handler cfgPaused dAcct 9 5 0 = .error .ProtocolPaused :=
  paused_gates_amended cfgPaused posWithdraw dAcct 7 5 9 0 0 (.ok 1)
    (.ok ()) (.ok ()) (.ok ()) (.ok ()) rfl rfl

end Credana
